import Mathlib

/-!
# Verification of `mcp_github_review` (`src/github_review/server.py`)

A shallow embedding of the MCP GitHub-review server.  Python strings are
Lean `String`s, Python dicts are association lists, Python exceptions are
`Except` errors, and the GitHub SDK collaborator is an explicit function
parameter whose invocations are recorded in a call trace.
-/

deriving instance DecidableEq for Except

namespace GithubReview

/-! ## Python string primitives -/

/-- Python `str.split(sep)` for a one-character separator, on the character
list of the string.  `''.split('/') == ['']`, `'/'.split('/') == ['', '']`. -/
def pySplitChars (sep : Char) : List Char → List (List Char)
  | [] => [[]]
  | c :: cs =>
    match pySplitChars sep cs with
    | [] => [[]]
    | h :: t => if c = sep then [] :: h :: t else (c :: h) :: t

/-- Python `s.split(sep)` for a one-character separator, as strings. -/
def pySplit (sep : Char) (s : String) : List String :=
  (pySplitChars sep s.data).map String.mk

/-- Python whitespace characters stripped by `int(str)`. -/
def isPySpace (c : Char) : Bool :=
  c = ' ' || c = '\t' || c = '\n' || c = '\r' || c = '\x0b' || c = '\x0c'

/-- Tail of a Python decimal integer literal: digits, with single
underscores allowed only between digits (`1_0` ok, `1__0`, `1_` bad). -/
def pyDigitTail : List Char → Bool
  | [] => true
  | '_' :: c :: rest => c.isDigit && pyDigitTail rest
  | '_' :: [] => false
  | c :: rest => c.isDigit && pyDigitTail rest

/-- A nonempty Python decimal digit string (no sign), underscores between
digits permitted. -/
def pyNatStr : List Char → Bool
  | [] => false
  | c :: rest => c.isDigit && pyDigitTail rest

/-- Numeric value of a digit string, skipping underscores. -/
def digitsToNat (cs : List Char) : Nat :=
  cs.foldl (fun acc c => if c = '_' then acc else acc * 10 + (c.toNat - '0'.toNat)) 0

/-- Python `int(s)` on a string: strips surrounding whitespace, accepts an
optional sign followed by a decimal literal; `none` models the raised
`ValueError`. -/
def pyInt (s : String) : Option Int :=
  let cs := ((s.data.dropWhile isPySpace).reverse.dropWhile isPySpace).reverse
  match cs with
  | '+' :: rest => if pyNatStr rest then some (digitsToNat rest) else none
  | '-' :: rest => if pyNatStr rest then some (-(digitsToNat rest : Int)) else none
  | _ => if pyNatStr cs then some (digitsToNat cs) else none

/-! ## `parse_pr_url` (server.py lines 87-99) -/

/-- The `(owner, repo, number)` triple extracted from a PR URL. -/
structure PRRef where
  owner : String
  repo : String
  number : Int
deriving DecidableEq, Repr

/-- Simplified Python `repr` of a string as it appears inside the
`int()` `ValueError` message (escaping of quotes inside `s` is elided;
no claim depends on the message text). -/
def pyRepr (s : String) : String := "'" ++ s ++ "'"

/-- `parse_pr_url` (lines 87-99): splits the URL on `'/'`, reads
`parts[-4]` as owner, `parts[-3]` as repo and `int(parts[-1])` as the PR
number; `IndexError` (fewer than 4 segments) and `ValueError` (non-integer
last segment) are caught and re-raised as
`ValueError("Invalid PR URL format: ...")`.  There is no check that any
segment equals `"pull"`. -/
def parse_pr_url (pr_url : String) : Except String PRRef :=
  let parts := pySplit '/' pr_url
  if parts.length < 4 then
    .error "Invalid PR URL format: list index out of range"
  else
    let owner := parts.getD (parts.length - 4) ""
    let repo := parts.getD (parts.length - 3) ""
    let last := parts.getD (parts.length - 1) ""
    match pyInt last with
    | some n => .ok ⟨owner, repo, n⟩
    | none =>
      .error ("Invalid PR URL format: invalid literal for int() with base 10: "
               ++ pyRepr last)

example : parse_pr_url "https://github.com/acme/widgets/pull/42"
    = .ok ⟨"acme", "widgets", 42⟩ := by decide

example : parse_pr_url "https://github.com/acme/widgets/issues/42"
    = .ok ⟨"acme", "widgets", 42⟩ := by decide

example : (parse_pr_url "https://github.com/acme/widgets/pull/42/").isOk = false := by decide

example : (parse_pr_url "https://github.com/acme/widgets/pull/42?page=1").isOk = false := by decide

example : (parse_pr_url "a/b").isOk = false := by decide

/-! ## GitHub collaborator data (PyGithub objects, as read by `get_pr_content`)

Timestamps are kept as their `isoformat()` strings; user objects are kept as
their `login` string, which is all the server reads. -/

/-- An issue-level comment as returned by `pr.get_issue_comments()`. -/
structure ApiComment where
  user : String
  body : String
  created_at : String
  updated_at : String
deriving DecidableEq, Repr

/-- A code-line review comment as returned by `pr.get_review_comments()`;
`position` can be null. -/
structure ApiReviewComment where
  user : String
  body : String
  path : String
  position : Option Int
  created_at : String
  updated_at : String
deriving DecidableEq, Repr

/-- A review as returned by `pr.get_reviews()`; `submitted_at` can be null. -/
structure ApiReview where
  user : String
  state : String
  body : String
  submitted_at : Option String
deriving DecidableEq, Repr

/-- A changed file as returned by `pr.get_files()`: the PyGithub `File`
object carries `filename`, `status`, `additions`, `deletions`, `changes`
and an optional `patch`. -/
structure ApiFile where
  filename : String
  status : String
  additions : Int
  deletions : Int
  changes : Int
  patch : Option String
deriving DecidableEq, Repr

/-- The pull-request object (with its associated lists) that the sequence
of collaborator calls in `get_pr_content` reads:  `repo.get_pull`,
`pr.get_issue_comments()`, `pr.get_review_comments()`, `pr.get_reviews()`,
`pr.get_files()` and the scalar attributes of `pr`. -/
structure ApiPR where
  title : String
  body : String
  state : String
  mergeable : Option Bool
  mergeable_state : String
  additions : Int
  deletions : Int
  changed_files : Int
  labels : List String
  created_at : String
  updated_at : String
  author : String
  issue_comments : List ApiComment
  review_comments : List ApiReviewComment
  reviews : List ApiReview
  files : List ApiFile
deriving DecidableEq, Repr

/-- A Python value as stored in the dicts the server builds and receives. -/
inductive PyVal where
  | str : String → PyVal
  | int : Int → PyVal
  | bool : Bool → PyVal
  | none : PyVal
deriving DecidableEq, Repr

/-- The file dict built in the `pr.get_files()` loop (lines 153-159): it
records only `filename`, `status`, `changes` and `patch` — the per-file
`additions` and `deletions` attributes are not copied. -/
def fileDict (f : ApiFile) : List (String × PyVal) :=
  [("filename", .str f.filename),
   ("status", .str f.status),
   ("changes", .int f.changes),
   ("patch", match f.patch with | some p => .str p | Option.none => .none)]

/-- The file record used downstream by the formatters, with exactly the
keys of `fileDict`. -/
structure FileRec where
  filename : String
  status : String
  changes : Int
  patch : Option String
deriving DecidableEq, Repr

/-- Projection of an `ApiFile` to the fields the file dict keeps. -/
def toFileRec (f : ApiFile) : FileRec :=
  ⟨f.filename, f.status, f.changes, f.patch⟩

/-- The `content` dict assembled by `get_pr_content` (lines 162-179). -/
structure PRContent where
  title : String
  body : String
  state : String
  mergeable : Option Bool
  mergeable_state : String
  files : List FileRec
  additions : Int
  deletions : Int
  changed_files : Int
  comments : List ApiComment
  review_comments : List ApiReviewComment
  reviews : List ApiReview
  labels : List String
  created_at : String
  updated_at : String
  author : String
deriving DecidableEq, Repr

/-- Lines 162-179: assembling the `content` dict from the fetched PR.  The
comment / review-comment / review loops copy their dicts field-for-field,
so those lists carry over unchanged; the file loop keeps only the
`fileDict` fields. -/
def build_content (pr : ApiPR) : PRContent :=
  { title := pr.title
    body := pr.body
    state := pr.state
    mergeable := pr.mergeable
    mergeable_state := pr.mergeable_state
    files := pr.files.map toFileRec
    additions := pr.additions
    deletions := pr.deletions
    changed_files := pr.changed_files
    comments := pr.issue_comments
    review_comments := pr.review_comments
    reviews := pr.reviews
    labels := pr.labels
    created_at := pr.created_at
    updated_at := pr.updated_at
    author := pr.author }

/-- The GitHub collaborator, abstracted: one aggregate fetch standing for
the sequence of read-only API calls issued for a `PRRef`; `Except.error`
is any exception one of those calls raises (rate limit, not-found, auth). -/
def Api : Type := PRRef → Except String ApiPR

/-- `get_pr_content` (lines 101-188): parse the URL, call the collaborator,
assemble the content dict.  The `except Exception` handler (186-188) logs
and re-raises, so every error — the parse `ValueError` included — leaves
the function unchanged.  The first component is the trace of collaborator
calls made. -/
def get_pr_content (api : Api) (pr_url : String) :
    List PRRef × Except String PRContent :=
  match parse_pr_url pr_url with
  | .error e => ([], .error e)
  | .ok ref =>
    match api ref with
    | .error e => ([ref], .error e)
    | .ok pr => ([ref], .ok (build_content pr))

/-! ## Python dict / truthiness helpers -/

/-- The `arguments` dict of a tool call (`dict | None` in the handler
signature); values are arbitrary Python values. -/
def ToolArgs : Type := List (String × PyVal)

/-- Python `dict.get(k)`: the value bound to `k`, or `None`. -/
def dictGet (d : List (String × PyVal)) (k : String) : Option PyVal :=
  (d.find? (fun p => p.1 = k)).map Prod.snd

/-- Python truthiness of a value. -/
def pyTruthy : PyVal → Bool
  | .str s => s ≠ ""
  | .int n => n ≠ 0
  | .bool b => b
  | .none => false

/-- `not arguments` for a `dict | None` parameter: `None` and the empty
dict are falsy. -/
def pyFalsyArgs : Option ToolArgs → Bool
  | Option.none => true
  | some d => List.isEmpty d

/-- Truthiness of a `dict.get` result: an absent key (`None`) is falsy. -/
def pyTruthyOpt : Option PyVal → Bool
  | Option.none => false
  | some v => pyTruthy v

/-! ## Text rendering of a PR (`handle_call_tool`, lines 214-253) -/

/-- `str(x)` for the nullable `mergeable` attribute. -/
def pyBoolStr : Option Bool → String
  | some true => "True"
  | some false => "False"
  | Option.none => "None"

/-- `str(x)` for the nullable `position` attribute. -/
def pyOptIntStr : Option Int → String
  | some n => toString n
  | Option.none => "None"

/-- The initial `output` list literal (lines 214-225): header block ending
with the `"\nReviews:\n"` section marker. -/
def headerLines (pc : PRContent) : List String :=
  ["PR Title: " ++ pc.title ++ "\n",
   "Author: " ++ pc.author,
   "State: " ++ pc.state,
   "Created: " ++ pc.created_at,
   "Updated: " ++ pc.updated_at ++ "\n",
   "Description: " ++ pc.body ++ "\n",
   "Changes: +" ++ toString pc.additions ++ " -" ++ toString pc.deletions
     ++ " in " ++ toString pc.changed_files ++ " files",
   "Labels: " ++ String.intercalate ", " pc.labels ++ "\n",
   "Mergeable: " ++ pyBoolStr pc.mergeable ++ " (" ++ pc.mergeable_state ++ ")\n"]

/-- Lines appended per review (lines 228-231): the body line only when the
body is truthy. -/
def reviewLines (r : ApiReview) : List String :=
  ("- " ++ r.user ++ " (" ++ r.state ++ ")")
    :: (if r.body ≠ "" then ["  Comment: " ++ r.body] else [])

/-- Lines appended per general comment (lines 235-237). -/
def commentLines (c : ApiComment) : List String :=
  ["- " ++ c.user ++ " at " ++ c.created_at ++ ":", "  " ++ c.body]

/-- Lines appended per code-line review comment (lines 241-243). -/
def reviewCommentLines (c : ApiReviewComment) : List String :=
  ["- " ++ c.user ++ " on " ++ c.path ++ " at position " ++ pyOptIntStr c.position ++ ":",
   "  " ++ c.body]

/-- Lines appended per modified file (lines 247-253): the diff only when
the patch is truthy. -/
def fileLines (f : FileRec) : List String :=
  ["\nFile: " ++ f.filename,
   "Status: " ++ f.status,
   "Changes: " ++ toString f.changes ++ " lines"]
  ++ (match f.patch with
      | some p => if p ≠ "" then ["Diff:", p] else []
      | Option.none => [])

/-- The `output` list built by `handle_call_tool` (lines 214-253), with
each Python `for`-loop of appends rendered as a `foldl`. -/
def formatOutput (pc : PRContent) : List String :=
  let output := headerLines pc ++ ["\nReviews:\n"]
  let output := pc.reviews.foldl (fun acc r => acc ++ reviewLines r) output
  let output := output ++ ["\nComments:\n"]
  let output := pc.comments.foldl (fun acc c => acc ++ commentLines c) output
  let output := output ++ ["\nReview Comments:\n"]
  let output := pc.review_comments.foldl (fun acc c => acc ++ reviewCommentLines c) output
  let output := output ++ ["\nModified files:\n"]
  pc.files.foldl (fun acc f => acc ++ fileLines f) output

/-- The final text block: `"\n".join(output)` (line 258). -/
def formatPR (pc : PRContent) : String :=
  String.intercalate "\n" (formatOutput pc)

/-! ## `handle_call_tool` (lines 190-269) -/

/-- `handle_call_tool`: validates the arguments, and for `review-pr`
fetches and formats the PR; any exception escaping `get_pr_content` is
caught (lines 261-266) and turned into a normal text result.  The result
is the collaborator call trace paired with either the returned
`TextContent` texts or the raised `ValueError` message. -/
def handle_call_tool (api : Api) (name : String) (arguments : Option ToolArgs) :
    List PRRef × Except String (List String) :=
  if pyFalsyArgs arguments then
    ([], .error "Missing arguments")
  else
    let args := arguments.getD []
    if name = "review-pr" then
      let pr_url := dictGet args "pr_url"
      match pr_url with
      | some (.str s) =>
        if s = "" then ([], .error "Missing PR URL")
        else
          match get_pr_content api s with
          | (calls, .ok pc) => (calls, .ok [formatPR pc])
          | (calls, .error e) => (calls, .ok ["Error retrieving PR content: " ++ e])
      | some v =>
        if pyTruthy v then
          -- a truthy non-string reaches `pr_url.split` and raises
          -- `AttributeError`, which the handler catches like any other
          ([], .ok ["Error retrieving PR content: AttributeError"])
        else ([], .error "Missing PR URL")
      | Option.none => ([], .error "Missing PR URL")
    else
      ([], .error ("Unknown tool: " ++ name))

/-! ## Prompt templating (`handle_get_prompt` and helpers, lines 271-407) -/

/-- `format_review_history` (lines 375-399): reviews, then general
comments, then code comments, each section only when its list is nonempty;
the per-review lines coincide with `reviewLines`. -/
def format_review_history (pc : PRContent) : String :=
  let history : List String :=
    if pc.reviews.isEmpty then []
    else pc.reviews.foldl (fun acc r => acc ++ reviewLines r) ["Reviews:"]
  let history :=
    if pc.comments.isEmpty then history
    else pc.comments.foldl (fun acc c => acc ++ ["- " ++ c.user ++ ": " ++ c.body])
           (history ++ ["\nGeneral Comments:"])
  let history :=
    if pc.review_comments.isEmpty then history
    else pc.review_comments.foldl
           (fun acc c => acc ++ ["- " ++ c.user ++ " on " ++ c.path ++ ": " ++ c.body])
           (history ++ ["\nCode Comments:"])
  String.intercalate "\n" history

/-- `format_file_summary` (lines 401-407). -/
def format_file_summary (files : List FileRec) : String :=
  String.intercalate "\n"
    (files.foldl
      (fun acc f => acc ++ ["- " ++ f.filename,
                            "  Changes: " ++ toString f.changes ++ " lines (" ++ f.status ++ ")"])
      [])

/-- The `{f' focusing on {focus}' if focus != 'general' else ''}`
interpolation (lines 289 and 318). -/
def focusClause (focus : String) : String :=
  if focus ≠ "general" then " focusing on " ++ focus else ""

/-- Review item 3 (line 304): only the exact strings `"security"` and
`"performance"` select special wording. -/
def codeReviewItem3 (focus : String) : String :=
  if focus = "security" then "Security implications and vulnerabilities"
  else if focus = "performance" then "Performance implications"
  else "General implementation concerns"

/-- Per-file analysis item (line 313). -/
def codeReviewFileItem (focus : String) : String :=
  if focus = "security" then "Security risks and mitigations"
  else if focus = "performance" then "Performance bottlenecks"
  else "Areas for improvement"

/-- The part of the `code-review` f-string (lines 289-316) after the
focus clause: literal fragments with the interpolations spliced in. -/
def codeReviewRest (focus : String) (pc : PRContent) : String :=
  (":\n\nTitle: "
  ++ (pc.title
  ++ ("\nAuthor: "
  ++ (pc.author
  ++ ("\nDescription:\n"
  ++ (pc.body
  ++ ("\n\nChanges: +"
  ++ (toString pc.additions
  ++ (" -"
  ++ (toString pc.deletions
  ++ (" in "
  ++ (toString pc.changed_files
  ++ (" files\n\nPrevious reviews and comments:\n"
  ++ (format_review_history pc
  ++ ("\n\nPlease provide a thorough code review that includes:\n1. Code quality and style analysis\n2. Potential bugs or issues\n3. "
  ++ (codeReviewItem3 focus
  ++ ("\n4. Test coverage assessment\n5. Documentation completeness\n6. Specific recommendations for improvement\n\nFor each modified file, please analyze:\n- The purpose and impact of changes\n- Code structure and organization\n- Potential edge cases\n- "
  ++ (codeReviewFileItem focus
  ++ "\n\nPlease be thorough but constructive in your feedback.\n"))))))))))))))))))

/-- The `code-review` prompt text (lines 289-316): the leading literal,
the focus clause, then the rest of the template. -/
def code_review_prompt (focus : String) (pc : PRContent) : String :=
  "Please review this pull request" ++ (focusClause focus ++ codeReviewRest focus pc)

/-- The `summarize-pr` prompt text (lines 331-354). -/
def summarize_prompt (pc : PRContent) : String :=
  "Please provide a concise summary of this pull request:\n\nTitle: "
  ++ (pc.title
  ++ ("\nAuthor: "
  ++ (pc.author
  ++ ("\n\nKey Information:\n- Changes: +"
  ++ (toString pc.additions
  ++ (" -"
  ++ (toString pc.deletions
  ++ (" in "
  ++ (toString pc.changed_files
  ++ (" files\n- Status: "
  ++ (pc.state
  ++ ("\n- Labels: "
  ++ (String.intercalate ", " pc.labels
  ++ ("\n\nDescription:\n"
  ++ (pc.body
  ++ ("\n\nModified Files Overview:\n"
  ++ (format_file_summary pc.files
  ++ "\n\nPlease provide:\n1. A brief overview of the main changes\n2. The purpose and impact of these changes\n3. Current review status and any concerns raised\n4. Next steps or pending actions\n\nKeep the summary clear and focused on the most important aspects.\n")))))))))))))))))

/-- A `GetPromptResult`: description plus `(role, text)` messages. -/
structure GetPromptResult where
  description : String
  messages : List (String × String)
deriving DecidableEq, Repr

/-- `handle_get_prompt` (lines 271-373): validates that a `pr_url` key is
present, fetches the PR content, and only then dispatches on the prompt
name; the trailing `raise ValueError(f"Unknown prompt: {name}")` (line
369) is caught by the outer handler (lines 371-373) and re-wrapped as
`"Error generating prompt: ..."`, as is any fetch error. -/
def handle_get_prompt (api : Api) (name : String)
    (arguments : Option (List (String × String))) :
    List PRRef × Except String GetPromptResult :=
  match arguments with
  | Option.none => ([], .error "Missing PR URL argument")
  | some args =>
    if args.isEmpty then ([], .error "Missing PR URL argument")
    else
      match args.find? (fun p => p.1 = "pr_url") with
      | Option.none => ([], .error "Missing PR URL argument")
      | some entry =>
        match get_pr_content api entry.2 with
        | (calls, .error e) => (calls, .error ("Error generating prompt: " ++ e))
        | (calls, .ok pc) =>
          if name = "code-review" then
            let focus := ((args.find? (fun p => p.1 = "focus")).map Prod.snd).getD "general"
            (calls, .ok ⟨"Code review for PR" ++ focusClause focus,
                         [("user", code_review_prompt focus pc)]⟩)
          else if name = "summarize-pr" then
            (calls, .ok ⟨"PR summary", [("user", summarize_prompt pc)]⟩)
          else
            (calls, .error ("Error generating prompt: " ++ ("Unknown prompt: " ++ name)))

/-! ## The time-boxed list operation -/

/-- Modelled from the spec: a `list-resources` / fetch-pull-requests
handler is not present in the revision under `src/` (the spec's §9 notes
mutually overlapping revisions of the handler file, with resource listing
sometimes present and sometimes absent).  Per §5 it issues two independent
search queries, awaits both under a fixed timeout, and on timeout returns
an empty result instead of raising; `timedOut` abstracts whether the
timeout fired before both queries completed. -/
def handle_list_resources (timedOut : Bool)
    (assigned review_requested : List String) : Except String (List String) :=
  if timedOut then .ok [] else .ok (assigned ++ review_requested)

/-! ## Sample data for concrete evaluations -/

/-- A small concrete pull request used to instantiate the theorems. -/
def samplePR : ApiPR :=
  { title := "Add widget cache"
    body := "Caches widgets."
    state := "open"
    mergeable := some true
    mergeable_state := "clean"
    additions := 10
    deletions := 2
    changed_files := 1
    labels := ["enhancement"]
    created_at := "2024-01-01T00:00:00"
    updated_at := "2024-01-02T00:00:00"
    author := "alice"
    issue_comments := [⟨"bob", "LGTM", "2024-01-01T01:00:00", "2024-01-01T01:00:00"⟩]
    review_comments := [⟨"carol", "rename this", "src/widget.py", some 3,
                         "2024-01-01T02:00:00", "2024-01-01T02:00:00"⟩]
    reviews := [⟨"bob", "APPROVED", "", Option.none⟩]
    files := [⟨"src/widget.py", "modified", 10, 2, 12, some "@@ -1 +1 @@"⟩] }

/-- A collaborator that answers every fetch with `samplePR`. -/
def sampleApi : Api := fun _ => .ok samplePR

/-! ## Shared lemmas -/

/-- A Python append-in-a-loop (`foldl` of `acc ++ f x`) is the initial
list followed by the concatenated per-element blocks. -/
theorem foldl_append_flatMap {α β : Type} (f : α → List β) (l : List α) :
    ∀ init : List β, l.foldl (fun acc x => acc ++ f x) init = init ++ l.flatMap f := by
  induction l with
  | nil => intro init; simp
  | cons x xs ih => intro init; simp [ih]

/-! ## Claims -/

/-- C1 counterexample: the claim says parsing
`https://github.com/acme/widgets/issues/42` fails with a validation error
because the `"pull"` segment is missing; in fact `parse_pr_url` succeeds
on it, returning `("acme", "widgets", 42)`. -/
theorem C1_counterexample :
    parse_pr_url "https://github.com/acme/widgets/issues/42"
      = Except.ok ⟨"acme", "widgets", 42⟩ := by decide

/-- C1 (amended): `parse_pr_url` fails with a validation error exactly
when the URL has fewer than 4 `/`-separated segments or its trailing
segment is not a Python integer literal; no check of the `"pull"` segment
is performed. -/
theorem C1_parse_failure_characterization (pr_url : String) :
    (parse_pr_url pr_url).isOk = false ↔
      ((pySplit '/' pr_url).length < 4 ∨
        pyInt ((pySplit '/' pr_url).getD ((pySplit '/' pr_url).length - 1) "")
          = Option.none) := by
  unfold parse_pr_url
  by_cases h : (pySplit '/' pr_url).length < 4
  · simp [h, Except.isOk, Except.toBool]
  · simp only [h, if_false]
    cases hint : pyInt ((pySplit '/' pr_url).getD ((pySplit '/' pr_url).length - 1) "") with
    | none => simp [hint, h, Except.isOk, Except.toBool]
    | some n => simp [hint, h, Except.isOk, Except.toBool]

/-- C2 counterexample: the claim says the parse result is independent of a
trailing slash; in fact appending `/` to the well-formed URL makes
`parse_pr_url` fail (its last `/`-segment becomes `""`). -/
theorem C2_counterexample :
    parse_pr_url "https://github.com/acme/widgets/pull/42/"
      ≠ Except.ok ⟨"acme", "widgets", 42⟩ := by decide

/-- C2 (amended): the bare well-formed URL parses to
`("acme", "widgets", 42)`, but appending a trailing slash or a query
string makes `parse_pr_url` fail with a validation error, because `int()`
is applied to the trailing `/`-segment verbatim. -/
theorem C2_trailing_slash_and_query_break_parse :
    parse_pr_url "https://github.com/acme/widgets/pull/42"
        = Except.ok ⟨"acme", "widgets", 42⟩
    ∧ (parse_pr_url "https://github.com/acme/widgets/pull/42/").isOk = false
    ∧ (parse_pr_url "https://github.com/acme/widgets/pull/42?page=1").isOk = false := by
  refine ⟨by decide, by decide, by decide⟩

/-- C7: the time-boxed list operation returns an empty list, not an
error, when the timeout fires before its two search queries complete. -/
theorem C7_timeout_returns_empty (assigned review_requested : List String) :
    handle_list_resources true assigned review_requested = Except.ok [] := rfl

/-- C8 counterexample: the claim says each file record carries
`additions` and `deletions` fields; the dict built by `get_pr_content`
for a concrete fetched file has neither key. -/
theorem C8_counterexample :
    "additions" ∉ (fileDict ⟨"src/widget.py", "modified", 10, 2, 12,
                     some "@@ -1 +1 @@"⟩).map Prod.fst
    ∧ "deletions" ∉ (fileDict ⟨"src/widget.py", "modified", 10, 2, 12,
                       some "@@ -1 +1 @@"⟩).map Prod.fst := by decide

/-- C8 (amended): every file record in a fetched snapshot has exactly the
fields `filename`, `status`, `changes` and (optional) `patch`; per-file
`additions` and `deletions` are read from the collaborator but not
stored. -/
theorem C8_file_record_fields (f : ApiFile) :
    (fileDict f).map Prod.fst = ["filename", "status", "changes", "patch"]
    ∧ (build_content { samplePR with files := [f] }).files = [toFileRec f] := by
  exact ⟨rfl, rfl⟩

/-- C3 counterexample: the claim says an invocation supplying only the
`(owner, repo, pr_number)` triple validates successfully and proceeds to
fetch; in fact it fails with `Missing PR URL` and the collaborator is
never called (empty trace). -/
theorem C3_counterexample :
    handle_call_tool sampleApi "review-pr"
      (some [("owner", PyVal.str "acme"), ("repo", PyVal.str "widgets"),
             ("pr_number", PyVal.int 42)])
      = ([], Except.error "Missing PR URL") := by decide

/-- C3 (amended): the `review-pr` tool reads only `pr_url`; any
non-empty argument dict without a `pr_url` key — the explicit triple
included — is rejected with `Missing PR URL` before any collaborator
call. -/
theorem C3_triple_not_accepted (api : Api) (args : ToolArgs)
    (hne : args.isEmpty = false) (h : dictGet args "pr_url" = Option.none) :
    handle_call_tool api "review-pr" (some args)
      = ([], Except.error "Missing PR URL") := by
  simp [handle_call_tool, pyFalsyArgs, hne, h]

/-- C3 witness: the amended theorem applied to a triple-only invocation. -/
theorem C3_witness :
    handle_call_tool sampleApi "review-pr"
      (some [("owner", PyVal.str "octo"), ("repo", PyVal.str "cat"),
             ("pr_number", PyVal.int 7)])
      = ([], Except.error "Missing PR URL") :=
  C3_triple_not_accepted sampleApi
    [("owner", PyVal.str "octo"), ("repo", PyVal.str "cat"), ("pr_number", PyVal.int 7)]
    (by decide) (by decide)

/-- C4 counterexample: the claim says a collaborator error aborts the
whole response, propagated to the transport; in fact `handle_call_tool`
catches it and returns a *normal* text result wrapping the message. -/
theorem C4_counterexample :
    handle_call_tool (fun _ => Except.error "403 rate limit exceeded") "review-pr"
      (some [("pr_url", PyVal.str "https://github.com/acme/widgets/pull/42")])
      = ([⟨"acme", "widgets", 42⟩],
         Except.ok ["Error retrieving PR content: 403 rate limit exceeded"]) := by decide

/-- C4 (amended): a collaborator error is re-raised unchanged by
`get_pr_content`, but `handle_call_tool` then catches it and converts it
into a normal text result `Error retrieving PR content: ...`; the
response is not aborted with the error. -/
theorem C4_collaborator_error_becomes_text (api : Api) (url : String)
    (ref : PRRef) (e : String)
    (hp : parse_pr_url url = Except.ok ref) (ha : api ref = Except.error e) :
    get_pr_content api url = ([ref], Except.error e)
    ∧ handle_call_tool api "review-pr" (some [("pr_url", PyVal.str url)])
        = ([ref], Except.ok ["Error retrieving PR content: " ++ e]) := by
  have hg : get_pr_content api url = ([ref], Except.error e) := by
    simp [get_pr_content, hp, ha]
  refine ⟨hg, ?_⟩
  have hne : url ≠ "" := by
    intro h0
    subst h0
    have hc : parse_pr_url ""
        = Except.error "Invalid PR URL format: list index out of range" := by decide
    rw [hc] at hp
    cases hp
  simp [handle_call_tool, pyFalsyArgs, dictGet, hne, hg]

/-- C4 witness: the amended theorem applied to a rate-limited fetch of
the sample PR URL. -/
theorem C4_witness :
    get_pr_content (fun _ => Except.error "rate limited")
        "https://github.com/acme/widgets/pull/42"
      = ([⟨"acme", "widgets", 42⟩], Except.error "rate limited")
    ∧ handle_call_tool (fun _ => Except.error "rate limited") "review-pr"
        (some [("pr_url", PyVal.str "https://github.com/acme/widgets/pull/42")])
      = ([⟨"acme", "widgets", 42⟩],
         Except.ok ["Error retrieving PR content: " ++ "rate limited"]) :=
  C4_collaborator_error_becomes_text (fun _ => Except.error "rate limited")
    "https://github.com/acme/widgets/pull/42" ⟨"acme", "widgets", 42⟩ "rate limited"
    (by decide) rfl

/-- C5: when the identification is absent — no arguments at all, or no
truthy `pr_url` value — the `review-pr` call fails with the
missing-argument `ValueError` and the collaborator trace is empty: no
GitHub call is made. -/
theorem C5_missing_identification_fails_before_fetch (api : Api)
    (args : Option ToolArgs)
    (h : pyFalsyArgs args = true
          ∨ pyTruthyOpt (dictGet (args.getD []) "pr_url") = false) :
    handle_call_tool api "review-pr" args
      = ([], Except.error
              (if pyFalsyArgs args then "Missing arguments" else "Missing PR URL")) := by
  by_cases hf : pyFalsyArgs args = true
  · simp [handle_call_tool, hf]
  · have hf' : pyFalsyArgs args = false := by
      cases hval : pyFalsyArgs args with
      | true => exact absurd hval hf
      | false => rfl
    have ht : pyTruthyOpt (dictGet (args.getD []) "pr_url") = false := h.resolve_left hf
    cases hd : dictGet (args.getD []) "pr_url" with
    | none => simp [handle_call_tool, hf', hd]
    | some v =>
      cases v with
      | str s =>
        have hs : s = "" := by simpa [pyTruthyOpt, pyTruthy, hd] using ht
        simp [handle_call_tool, hf', hd, hs]
      | int n =>
        have hv : pyTruthy (PyVal.int n) = false := by simpa [pyTruthyOpt, hd] using ht
        simp [handle_call_tool, hf', hd, hv]
      | bool b =>
        have hv : pyTruthy (PyVal.bool b) = false := by simpa [pyTruthyOpt, hd] using ht
        simp [handle_call_tool, hf', hd, hv]
      | none =>
        simp [handle_call_tool, hf', hd, pyTruthy]

/-- C5 witness: a call whose arguments carry no `pr_url` is rejected with
an empty collaborator trace. -/
theorem C5_witness :
    handle_call_tool sampleApi "review-pr" (some [("focus", PyVal.str "security")])
      = ([], Except.error "Missing PR URL") := by
  have h := C5_missing_identification_fails_before_fetch sampleApi
    (some [("focus", PyVal.str "security")]) (Or.inr (by decide))
  rw [h]
  decide

/-- C6: the `review-pr` text rendering is exactly the header block,
then the reviews section, then the general comments, then the code-line
review comments, then the modified files with their per-file diffs — in
that fixed order. -/
theorem C6_sections_fixed_order (pc : PRContent) :
    formatOutput pc
      = headerLines pc ++ ["\nReviews:\n"] ++ pc.reviews.flatMap reviewLines
        ++ ["\nComments:\n"] ++ pc.comments.flatMap commentLines
        ++ ["\nReview Comments:\n"] ++ pc.review_comments.flatMap reviewCommentLines
        ++ ["\nModified files:\n"] ++ pc.files.flatMap fileLines
    ∧ formatPR pc
      = String.intercalate "\n"
          (headerLines pc ++ ["\nReviews:\n"] ++ pc.reviews.flatMap reviewLines
            ++ ["\nComments:\n"] ++ pc.comments.flatMap commentLines
            ++ ["\nReview Comments:\n"] ++ pc.review_comments.flatMap reviewCommentLines
            ++ ["\nModified files:\n"] ++ pc.files.flatMap fileLines) := by
  have h : formatOutput pc
      = headerLines pc ++ ["\nReviews:\n"] ++ pc.reviews.flatMap reviewLines
        ++ ["\nComments:\n"] ++ pc.comments.flatMap commentLines
        ++ ["\nReview Comments:\n"] ++ pc.review_comments.flatMap reviewCommentLines
        ++ ["\nModified files:\n"] ++ pc.files.flatMap fileLines := by
    simp [formatOutput, foldl_append_flatMap, List.append_assoc]
  exact ⟨h, by rw [formatPR, h]⟩

/-- C9: a `get-prompt` request with a `pr_url` but an unknown prompt name
performs the full PR fetch first (the collaborator trace is non-empty),
and only afterwards fails, with the unknown-name error wrapped by the
outer handler into `Error generating prompt: ...`. -/
theorem C9_fetch_precedes_name_validation (api : Api) (name url : String)
    (args : List (String × String)) (ref : PRRef) (pr : ApiPR)
    (h1 : name ≠ "code-review") (h2 : name ≠ "summarize-pr")
    (h3 : args.find? (fun p => p.1 = "pr_url") = some ("pr_url", url))
    (h4 : parse_pr_url url = Except.ok ref) (h5 : api ref = Except.ok pr) :
    handle_get_prompt api name (some args)
      = ([ref], Except.error ("Error generating prompt: " ++ ("Unknown prompt: " ++ name))) := by
  have hne : args.isEmpty = false := by
    cases args with
    | nil => simp at h3
    | cons a l => rfl
  have hg : get_pr_content api url = ([ref], Except.ok (build_content pr)) := by
    simp [get_pr_content, h4, h5]
  simp [handle_get_prompt, hne, h3, hg, h1, h2]

/-- C9 witness: asking for the unknown prompt `explain-pr` on the sample
PR fetches it (trace `[acme/widgets#42]`) and then fails with the wrapped
unknown-prompt error. -/
theorem C9_witness :
    handle_get_prompt sampleApi "explain-pr"
        (some [("pr_url", "https://github.com/acme/widgets/pull/42")])
      = ([⟨"acme", "widgets", 42⟩],
         Except.error ("Error generating prompt: " ++ ("Unknown prompt: " ++ "explain-pr"))) :=
  C9_fetch_precedes_name_validation sampleApi "explain-pr"
    "https://github.com/acme/widgets/pull/42"
    [("pr_url", "https://github.com/acme/widgets/pull/42")]
    ⟨"acme", "widgets", 42⟩ samplePR
    (by decide) (by decide) (by decide) (by decide) rfl

/-- C10: the `focus` argument is not validated against a closed set: any
focus other than `general` is spliced verbatim after `focusing on ` in
the prompt text, and any focus other than the exact strings `security`
and `performance` receives the general-branch wording for the two
enumerated review items (while those two exact values receive their
special wording). -/
theorem C10_focus_not_validated (focus : String) (pc : PRContent)
    (h1 : focus ≠ "general") (h2 : focus ≠ "security") (h3 : focus ≠ "performance") :
    (∃ a b : String, code_review_prompt focus pc = a ++ ("focusing on " ++ (focus ++ b)))
    ∧ codeReviewItem3 focus = "General implementation concerns"
    ∧ codeReviewFileItem focus = "Areas for improvement"
    ∧ (∃ a b : String,
        code_review_prompt "security" pc = a ++ ("focusing on " ++ ("security" ++ b)))
    ∧ codeReviewItem3 "security" = "Security implications and vulnerabilities"
    ∧ codeReviewFileItem "security" = "Security risks and mitigations"
    ∧ (∃ a b : String,
        code_review_prompt "performance" pc = a ++ ("focusing on " ++ ("performance" ++ b)))
    ∧ codeReviewItem3 "performance" = "Performance implications"
    ∧ codeReviewFileItem "performance" = "Performance bottlenecks" := by
  have hsplit : (" focusing on " : String) = " " ++ "focusing on " := rfl
  have contains : ∀ g : String, g ≠ "general" →
      ∃ a b : String, code_review_prompt g pc = a ++ ("focusing on " ++ (g ++ b)) := by
    intro g hg
    refine ⟨"Please review this pull request" ++ " ", codeReviewRest g pc, ?_⟩
    simp only [code_review_prompt, focusClause, hg, ite_not, if_false, String.append_assoc]
    rw [← String.append_assoc " " "focusing on " (g ++ codeReviewRest g pc)]
    rfl
  refine ⟨contains focus h1, ?_, ?_, contains "security" (by decide), rfl, rfl,
          contains "performance" (by decide), rfl, rfl⟩
  · simp [codeReviewItem3, h2, h3]
  · simp [codeReviewFileItem, h2, h3]

/-- C10 witness: the theorem applied at the focus `tests`, which is
outside the suggested set. -/
theorem C10_witness :
    (∃ a b : String,
        code_review_prompt "tests" (build_content samplePR)
          = a ++ ("focusing on " ++ ("tests" ++ b)))
    ∧ codeReviewItem3 "tests" = "General implementation concerns"
    ∧ codeReviewFileItem "tests" = "Areas for improvement"
    ∧ (∃ a b : String,
        code_review_prompt "security" (build_content samplePR)
          = a ++ ("focusing on " ++ ("security" ++ b)))
    ∧ codeReviewItem3 "security" = "Security implications and vulnerabilities"
    ∧ codeReviewFileItem "security" = "Security risks and mitigations"
    ∧ (∃ a b : String,
        code_review_prompt "performance" (build_content samplePR)
          = a ++ ("focusing on " ++ ("performance" ++ b)))
    ∧ codeReviewItem3 "performance" = "Performance implications"
    ∧ codeReviewFileItem "performance" = "Performance bottlenecks" :=
  C10_focus_not_validated "tests" (build_content samplePR)
    (by decide) (by decide) (by decide)

end GithubReview
